import Mathlib

/-!
A shallow embedding of the Express backend in server.js of the react-todo
repository: the JWT access gate (authenticateToken), the auth endpoints
(register, login) and the ownership-scoped todo CRUD handlers, together with
theorems settling the frozen claims about them.

Modelling conventions:
  - The PostgreSQL store is a pure state (lists of rows); parameterized
    queries become list operations; the BIGSERIAL columns become explicit
    counters; NOW() is a strictly increasing Nat clock advanced on insert.
  - bcrypt is abstracted as function parameters (hashing and comparison);
    jsonwebtoken is modelled by a Token record carrying the signing secret
    and the payload, with an abstract decoder from token strings.
  - Header strings handled by the gate are lists of characters, so that the
    split-on-space of JavaScript can be reasoned about by induction.
  - HTTP responses are a status code and a body; the body shapes are the
    exact JSON shapes server.js produces, as an inductive type.
-/

/-- A JavaScript value as it can appear in a parsed JSON request body field
(the shapes relevant to the handlers under verification). -/
inductive JsVal where
  | vbool (b : Bool)
  | vstr (s : String)
  | vnum (n : Int)
  | vnull
  | vundef
deriving DecidableEq, Repr

/-- The typeof-completed-is-boolean test of the PATCH handler. -/
def JsVal.isBool : JsVal → Bool
  | .vbool _ => true
  | _ => false

/-- The claims jwt.sign embeds: userId, email, and the computed expiry. -/
structure TokenPayload where
  userId : Int
  email : String
  exp : Nat
deriving DecidableEq, Repr

/-- A structurally valid JWT: a payload signed with some secret. A token
string that does not decode to such a record is malformed. -/
structure Token where
  secret : Nat
  payload : TokenPayload
deriving DecidableEq, Repr

/-- Outcome of jwt.verify on a token string. -/
inductive VerifyResult where
  | valid (userId : Int) (email : String)
  | expired
  | malformed
deriving DecidableEq, Repr

/-- Outcome of the authenticateToken middleware: an early JSON error
response, or binding of the decoded identity into req.user and next(). -/
inductive AuthOutcome where
  | reject (status : Nat) (msg : String)
  | proceed (userId : Int) (email : String)
deriving DecidableEq, Repr

/-- A row of the users table. -/
structure User where
  id : Int
  email : String
  passwordHash : String
  createdAt : Nat
deriving DecidableEq, Repr

/-- The user fields the API exposes (never the password hash). -/
structure UserPublic where
  id : Int
  email : String
  createdAt : Nat
deriving DecidableEq, Repr

/-- A row of the todos table. -/
structure Todo where
  id : Int
  text : String
  completed : Bool
  userId : Int
  createdAt : Nat
deriving DecidableEq, Repr

/-- The PostgreSQL state: both tables, the BIGSERIAL counters, and the
clock read by NOW(). -/
structure DB where
  users : List User
  todos : List Todo
  nextUserId : Int
  nextTodoId : Int
  now : Nat
deriving DecidableEq, Repr

/-- The JSON body shapes server.js sends. errDetails is the 500-path shape
with both an error field and a details field carrying err.message. -/
inductive Body where
  | err (msg : String)
  | errDetails (msg details : String)
  | dataTodo (t : Todo)
  | dataTodos (ts : List Todo)
  | dataUserToken (u : UserPublic) (tok : Token)
  | dataUser (u : UserPublic)
  | msg (m : String)
deriving DecidableEq, Repr

/-- An HTTP response: status code and JSON body. -/
structure Response where
  status : Nat
  body : Body
deriving DecidableEq, Repr

/-! ### The literal response messages of server.js -/

def needLoginMsg : String := "로그인이 필요합니다."

def expiredMsg : String := "로그인이 만료되었습니다. 다시 로그인해주세요."

def invalidTokenMsg : String := "유효하지 않은 토큰입니다."

def missingFieldsMsg : String := "이메일과 비밀번호를 입력해주세요."

def badEmailMsg : String := "올바른 이메일 형식을 입력해주세요."

def shortPwMsg : String := "비밀번호는 6자 이상이어야 합니다."

def dupEmailMsg : String := "이미 가입된 이메일입니다."

def serverErrMsg : String := "서버 오류가 발생했습니다."

def loginFailMsg : String := "이메일 또는 비밀번호가 올바르지 않습니다."

def emptyTextMsg : String := "할 일 내용을 입력해주세요."

def nonBoolMsg : String := "completed는 true 또는 false여야 합니다."

def notFoundTodoMsg : String := "해당 할 일을 찾을 수 없습니다."

def deletedMsg : String := "할 일이 삭제되었습니다."

/-- The PostgreSQL error message raised when a text id parameter cannot be
cast to bigint; it becomes err.message in the details field of the
500 response of the PATCH and DELETE handlers. -/
def invalidBigintMsg (s : String) : String :=
  "invalid input syntax for type bigint: \"" ++ s ++ "\""

/-! ### The access gate (authenticateToken, server.js lines 137-161) -/

/-- JavaScript String.split with separator a single space, on character
lists: "".split gives [""], separators at the ends give empty groups. -/
def splitSp : List Char → List (List Char)
  | [] => [[]]
  | c :: cs =>
    if c = ' ' then [] :: splitSp cs
    else
      match splitSp cs with
      | [] => [[c]]
      | g :: gs => (c :: g) :: gs

/-- The token extraction of authenticateToken:
authHeader and authHeader.split(s p a c e)[1], then the falsy check.
A missing header, a header without a second space-separated component, and
an empty second component all yield no token. -/
def extractToken : Option (List Char) → Option (List Char)
  | none => none
  | some h =>
    match (splitSp h)[1]? with
    | none => none
    | some t => if t = [] then none else some t

/-- The authenticateToken middleware, parameterized by the verifier for
token strings (jwt.verify with the process secret and current clock). -/
def authenticateToken (verify : List Char → VerifyResult)
    (authHeader : Option (List Char)) : AuthOutcome :=
  match extractToken authHeader with
  | none => .reject 401 needLoginMsg
  | some tok =>
    match verify tok with
    | .valid uid em => .proceed uid em
    | .expired => .reject 401 expiredMsg
    | .malformed => .reject 403 invalidTokenMsg

/-- jwt.verify(token, JWT_SECRET): decode the token string; a decoding
failure or a signature made with a different secret is malformed
(JsonWebTokenError, 403 path); with a valid signature, a clock at or past
the expiry is TokenExpiredError (401 re-login path); otherwise the payload
is returned. -/
def jwtVerify (secret : Nat) (now : Nat) (decode : List Char → Option Token)
    (s : List Char) : VerifyResult :=
  match decode s with
  | none => .malformed
  | some t =>
    if t.secret = secret then
      if now < t.payload.exp then .valid t.payload.userId t.payload.email
      else .expired
    else .malformed

/-- JWT_EXPIRES_IN is seven days. -/
def sevenDays : Nat := 7 * 24 * 60 * 60

/-- jwt.sign of the identity claims with expiresIn seven days. -/
def issueToken (secret : Nat) (uid : Int) (email : String) (now : Nat) :
    Token :=
  ⟨secret, ⟨uid, email, now + sevenDays⟩⟩

/-! ### Registration and login (server.js lines 173-296) -/

/-- Whitespace trimming on character lists: drop leading and trailing
whitespace. -/
def trimList (l : List Char) : List Char :=
  ((l.dropWhile (·.isWhitespace)).reverse.dropWhile (·.isWhitespace)).reverse

/-- JavaScript String.prototype.trim, over the character list of the
string (Char.isWhitespace covers the ASCII whitespace; the JavaScript
class also has exotic Unicode spaces, which no claim exercises). -/
def jsTrim (s : String) : String :=
  String.mk (trimList s.toList)

/-- The email normalization email.toLowerCase().trim() of the register and
login handlers. Char.toLower is the ASCII case fold; the JavaScript one
also folds non-ASCII letters, which no claim exercises. -/
def normalizeEmail (s : String) : String :=
  String.mk (trimList (s.toList.map Char.toLower))

/-- The cast PostgreSQL applies to a text id parameter compared against a
bigint column: an optional sign followed by one or more digits. A string
outside this shape raises the invalid-input-syntax error (the store also
tolerates surrounding blanks, which no claim exercises). -/
def parseBigint (s : String) : Option Int :=
  let digitsVal : List Char → Int :=
    fun ds => (ds.foldl (fun n c => 10 * n + (c.toNat - 48)) 0 : Nat)
  match s.toList with
  | [] => none
  | '-' :: ds =>
    if ds ≠ [] ∧ ds.all (·.isDigit) then some (-(digitsVal ds)) else none
  | '+' :: ds =>
    if ds ≠ [] ∧ ds.all (·.isDigit) then some (digitsVal ds) else none
  | ds =>
    if ds.all (·.isDigit) then some (digitsVal ds) else none

/-- Interior dot test: the regex tail [^\s@]+\.[^\s@]+ admits exactly the
strings with some dot that is neither the first nor the last character
(the plus-classes themselves admit dots). -/
def hasInteriorDot (b : List Char) : Bool :=
  match b with
  | [] => false
  | _ :: rest => rest.dropLast.contains '.'

/-- The email regex of the register handler, on the whole string:
one at-sign, no whitespace anywhere, nonempty local part, and a domain
with an interior dot. Char.isWhitespace models the \s class (ASCII
whitespace; the JavaScript class also has exotic Unicode spaces, which no
claim exercises). -/
def emailRegexOk (s : String) : Bool :=
  match s.toList.splitOn '@' with
  | [a, b] =>
    !a.isEmpty && a.all (fun c => !c.isWhitespace)
      && b.all (fun c => !c.isWhitespace) && hasInteriorDot b
  | _ => false

/-- POST /api/auth/register. The bcrypt hash is an abstract function
parameter. The INSERT with the UNIQUE constraint on email is modelled by
the duplicate test on the normalized email: the constraint violation
(error code 23505) is the 409 branch. Missing fields are modelled by
empty strings (the falsy values of string-typed fields). -/
def register (db : DB) (secret : Nat) (hash : String → String)
    (email password : String) : Response × DB :=
  if email = "" ∨ password = "" then
    (⟨400, .err missingFieldsMsg⟩, db)
  else if !emailRegexOk email then
    (⟨400, .err badEmailMsg⟩, db)
  else if password.length < 6 then
    (⟨400, .err shortPwMsg⟩, db)
  else
    let norm := normalizeEmail email
    if db.users.any (fun u => u.email == norm) then
      (⟨409, .err dupEmailMsg⟩, db)
    else
      let u : User := ⟨db.nextUserId, norm, hash password, db.now⟩
      let tok := issueToken secret u.id u.email db.now
      (⟨200, .dataUserToken ⟨u.id, u.email, u.createdAt⟩ tok⟩,
       { db with
          users := db.users ++ [u]
          nextUserId := db.nextUserId + 1
          now := db.now + 1 })

/-- POST /api/auth/login. bcrypt.compare is an abstract parameter; the
SELECT by normalized email is find?, and rows[0] is its result. Both the
unknown-email branch and the wrong-password branch produce the same 401
response. -/
def login (db : DB) (secret : Nat) (compare : String → String → Bool)
    (email password : String) : Response × DB :=
  if email = "" ∨ password = "" then
    (⟨400, .err missingFieldsMsg⟩, db)
  else
    match db.users.find? (fun u => u.email == normalizeEmail email) with
    | none => (⟨401, .err loginFailMsg⟩, db)
    | some u =>
      if compare password u.passwordHash then
        (⟨200, .dataUserToken ⟨u.id, u.email, u.createdAt⟩
            (issueToken secret u.id u.email db.now)⟩, db)
      else (⟨401, .err loginFailMsg⟩, db)

/-! ### Todo handlers (server.js lines 325-431) -/

/-- Insertion into a list sorted by createdAt descending. -/
def insertByCreatedDesc (t : Todo) : List Todo → List Todo
  | [] => [t]
  | x :: xs =>
    if x.createdAt ≤ t.createdAt then t :: x :: xs
    else x :: insertByCreatedDesc t xs

/-- ORDER BY created_at DESC as an insertion sort. -/
def sortByCreatedDesc : List Todo → List Todo
  | [] => []
  | x :: xs => insertByCreatedDesc x (sortByCreatedDesc xs)

/-- GET /api/todos: SELECT * FROM todos WHERE user_id equals the caller,
ORDER BY created_at DESC. -/
def listTodos (db : DB) (uid : Int) : Response :=
  ⟨200, .dataTodos (sortByCreatedDesc (db.todos.filter
      (fun t => t.userId == uid)))⟩

/-- POST /api/todos: the falsy-or-whitespace-only check on text, then
INSERT with completed false, the caller as owner and NOW() as timestamp,
RETURNING the row. text is the string field of the body, or none when the
field is absent. -/
def createTodo (db : DB) (uid : Int) (text : Option String) :
    Response × DB :=
  match text with
  | none => (⟨400, .err emptyTextMsg⟩, db)
  | some t =>
    if t = "" ∨ jsTrim t = "" then (⟨400, .err emptyTextMsg⟩, db)
    else
      let todo : Todo := ⟨db.nextTodoId, t, false, uid, db.now⟩
      (⟨200, .dataTodo todo⟩,
       { db with
          todos := db.todos ++ [todo]
          nextTodoId := db.nextTodoId + 1
          now := db.now + 1 })

/-- PATCH /api/todos/:id: the typeof boolean check runs before any query;
then UPDATE ... WHERE id = $2 AND user_id = $3 RETURNING *. A path id the
store cannot cast to bigint raises, and the catch block answers 500 with
the details field. Zero updated rows is the 404 branch. -/
def updateTodo (db : DB) (uid : Int) (idStr : String) (completed : JsVal) :
    Response × DB :=
  match completed with
  | .vbool b =>
    match parseBigint idStr with
    | none => (⟨500, .errDetails serverErrMsg (invalidBigintMsg idStr)⟩, db)
    | some i =>
      match db.todos.filter (fun t => t.id == i && t.userId == uid) with
      | [] => (⟨404, .err notFoundTodoMsg⟩, db)
      | r :: _ =>
        (⟨200, .dataTodo { r with completed := b }⟩,
         { db with
            todos := db.todos.map (fun t =>
              if t.id == i && t.userId == uid then { t with completed := b }
              else t) })
  | _ => (⟨400, .err nonBoolMsg⟩, db)

/-- DELETE /api/todos/:id: DELETE ... WHERE id = $1 AND user_id = $2; an
uncastable id raises to the catch block (500 with details); rowCount zero
is the 404 branch. -/
def deleteTodo (db : DB) (uid : Int) (idStr : String) : Response × DB :=
  match parseBigint idStr with
  | none => (⟨500, .errDetails serverErrMsg (invalidBigintMsg idStr)⟩, db)
  | some i =>
    let remaining := db.todos.filter
      (fun t => !(t.id == i && t.userId == uid))
    if remaining.length = db.todos.length then
      (⟨404, .err notFoundTodoMsg⟩, db)
    else (⟨200, .msg deletedMsg⟩, { db with todos := remaining })

/-! ### Concrete fixtures used by the witness theorems -/

/-- A concrete token decoder: three known token strings, signed with
secret 7 and expiries 50 and 200, and one signed with the wrong secret 8;
everything else fails to decode. -/
def decode0 : List Char → Option Token := fun s =>
  if s = "tokexp".toList then some ⟨7, ⟨1, "a@x.com", 50⟩⟩
  else if s = "tokok".toList then some ⟨7, ⟨1, "a@x.com", 200⟩⟩
  else if s = "tokbad".toList then some ⟨8, ⟨1, "a@x.com", 200⟩⟩
  else none

/-- A concrete stand-in for bcrypt.hash. -/
def hash0 : String → String := fun s => "hashed:" ++ s

/-- A concrete stand-in for bcrypt.compare that never matches. -/
def cmp0 : String → String → Bool := fun _ _ => false

/-- The account of identity A in the fixtures. -/
def userA : User := ⟨1, "a@x.com", "H", 0⟩

/-- The item owned by identity A in the fixtures. -/
def todoA : Todo := ⟨10, "A item", false, 1, 5⟩

/-- One account, one todo. -/
def db1 : DB := ⟨[userA], [todoA], 2, 11, 6⟩

/-- Two accounts (identities A and B); A owns the only todo. -/
def db2 : DB := ⟨[userA, ⟨2, "b@x.com", "H", 0⟩], [todoA], 3, 11, 6⟩

/-- A 501-character text, one character past the bound the documentation
states for the create endpoint. -/
def longText : String := String.mk (List.replicate 501 'a')

/-! ### Helper lemmas -/

theorem splitSp_no_space (t : List Char) (ht : ' ' ∉ t) :
    splitSp t = [t] := by
  induction t with
  | nil => simp [splitSp]
  | cons c cs ih =>
    have hc : ¬(c = ' ') := fun h => ht (h ▸ List.mem_cons_self c cs)
    have hcs : ' ' ∉ cs := fun h => ht (List.mem_cons_of_mem c h)
    simp [splitSp, hc, ih hcs]

theorem splitSp_append (w t : List Char) (hw : ' ' ∉ w) :
    splitSp (w ++ ' ' :: t) = w :: splitSp t := by
  induction w with
  | nil => simp [splitSp]
  | cons c cs ih =>
    have hc : ¬(c = ' ') := fun h => hw (h ▸ List.mem_cons_self c cs)
    have hcs : ' ' ∉ cs := fun h => hw (List.mem_cons_of_mem c h)
    simp only [List.cons_append, splitSp, if_neg hc, List.append_eq, ih hcs]

theorem mem_insertByCreatedDesc (a t : Todo) (l : List Todo) :
    a ∈ insertByCreatedDesc t l ↔ a = t ∨ a ∈ l := by
  induction l with
  | nil => simp [insertByCreatedDesc]
  | cons x xs ih =>
    by_cases h : x.createdAt ≤ t.createdAt
    · simp [insertByCreatedDesc, h]
    · simp [insertByCreatedDesc, h, ih]
      tauto

theorem mem_sortByCreatedDesc (a : Todo) (l : List Todo) :
    a ∈ sortByCreatedDesc l ↔ a ∈ l := by
  induction l with
  | nil => simp [sortByCreatedDesc]
  | cons x xs ih =>
    simp [sortByCreatedDesc, mem_insertByCreatedDesc, ih]

theorem insertByCreatedDesc_lt (u t : Todo) (l : List Todo)
    (h : u.createdAt < t.createdAt) :
    insertByCreatedDesc u (t :: l) = t :: insertByCreatedDesc u l := by
  simp [insertByCreatedDesc, Nat.not_le.mpr h]

theorem sortByCreatedDesc_append_max (t : Todo) (l : List Todo)
    (h : ∀ u ∈ l, u.createdAt < t.createdAt) :
    sortByCreatedDesc (l ++ [t]) = t :: sortByCreatedDesc l := by
  induction l with
  | nil => simp [sortByCreatedDesc, insertByCreatedDesc]
  | cons x xs ih =>
    have hx : x.createdAt < t.createdAt := h x (List.mem_cons_self x xs)
    have hxs : ∀ u ∈ xs, u.createdAt < t.createdAt :=
      fun u hu => h u (List.mem_cons_of_mem x hu)
    simp only [List.cons_append, sortByCreatedDesc, List.append_eq, ih hxs,
      insertByCreatedDesc_lt x t _ hx]

/-! ### Claim theorems -/

/-- C2: access gate state machine. On every token-protected route, a
request from which no token can be extracted is rejected 401 with the
login-required message before any handler runs; a token that decodes with
the process secret but whose expiry is at or before the clock is rejected
401 with the distinct re-login message; a token that fails to decode or
was signed with a different secret is rejected 403; a token that decodes
with the process secret and an expiry after the clock binds the identity
of its payload into the request and the handler proceeds. -/
theorem access_gate_state_machine (secret now : Nat)
    (decode : List Char → Option Token) (h : Option (List Char)) :
    (extractToken h = none →
      authenticateToken (jwtVerify secret now decode) h =
        .reject 401 needLoginMsg) ∧
    (∀ t p, extractToken h = some t → decode t = some ⟨secret, p⟩ →
      p.exp ≤ now →
      authenticateToken (jwtVerify secret now decode) h =
        .reject 401 expiredMsg) ∧
    (∀ t, extractToken h = some t →
      (decode t = none ∨ ∃ tk, decode t = some tk ∧ tk.secret ≠ secret) →
      authenticateToken (jwtVerify secret now decode) h =
        .reject 403 invalidTokenMsg) ∧
    (∀ t p, extractToken h = some t → decode t = some ⟨secret, p⟩ →
      now < p.exp →
      authenticateToken (jwtVerify secret now decode) h =
        .proceed p.userId p.email) ∧
    expiredMsg ≠ needLoginMsg ∧ expiredMsg ≠ invalidTokenMsg := by
  refine ⟨?_, ?_, ?_, ?_, ?_, ?_⟩
  · intro he
    simp [authenticateToken, he]
  · intro t p he hd hexp
    simp [authenticateToken, he, jwtVerify, hd, Nat.not_lt.mpr hexp]
  · intro t he hd
    rcases hd with h0 | ⟨tk, hdk, hne⟩
    · simp [authenticateToken, he, jwtVerify, h0]
    · simp [authenticateToken, he, jwtVerify, hdk, hne]
  · intro t p he hd hlt
    simp [authenticateToken, he, jwtVerify, hd, hlt]
  · decide
  · decide

/-- Closed instance of the access gate state machine: the four outcomes at
concrete headers, the decoder decode0, secret 7 and clock 100. -/
theorem access_gate_state_machine_witness :
    authenticateToken (jwtVerify 7 100 decode0) none =
      .reject 401 needLoginMsg ∧
    authenticateToken (jwtVerify 7 100 decode0)
      (some ("Bearer tokexp".toList)) = .reject 401 expiredMsg ∧
    authenticateToken (jwtVerify 7 100 decode0)
      (some ("Bearer junk".toList)) = .reject 403 invalidTokenMsg ∧
    authenticateToken (jwtVerify 7 100 decode0)
      (some ("Bearer tokbad".toList)) = .reject 403 invalidTokenMsg ∧
    authenticateToken (jwtVerify 7 100 decode0)
      (some ("Bearer tokok".toList)) = .proceed 1 "a@x.com" := by
  have h := access_gate_state_machine 7 100 decode0
  refine ⟨(h none).1 (by decide),
    (h (some ("Bearer tokexp".toList))).2.1 "tokexp".toList ⟨1, "a@x.com", 50⟩
      (by decide) (by decide) (by decide),
    (h (some ("Bearer junk".toList))).2.2.1 "junk".toList
      (by decide) (Or.inl (by decide)),
    (h (some ("Bearer tokbad".toList))).2.2.1 "tokbad".toList
      (by decide) (Or.inr ⟨⟨8, ⟨1, "a@x.com", 200⟩⟩, by decide, by decide⟩),
    (h (some ("Bearer tokok".toList))).2.2.2.1 "tokok".toList
      ⟨1, "a@x.com", 200⟩ (by decide) (by decide) (by decide)⟩

/-- C9: the gate takes the second space-separated component of the
Authorization header as the token, so any scheme word followed by a valid
token authenticates, while a bare token with no scheme prefix is treated
exactly like a missing header: 401 with the login-required message. -/
theorem token_extraction_ignores_scheme (verify : List Char → VerifyResult)
    (w t : List Char) (hw : ' ' ∉ w) (ht : ' ' ∉ t) (htne : t ≠ [])
    (uid : Int) (em : String) (hv : verify t = .valid uid em) :
    authenticateToken verify (some (w ++ ' ' :: t)) = .proceed uid em ∧
    authenticateToken verify (some t) = .reject 401 needLoginMsg ∧
    authenticateToken verify (some t) = authenticateToken verify none := by
  have hsplit : splitSp (w ++ ' ' :: t) = w :: splitSp t := splitSp_append w t hw
  have hbare : splitSp t = [t] := splitSp_no_space t ht
  refine ⟨?_, ?_, ?_⟩
  · simp [authenticateToken, extractToken, hsplit, hbare, htne, hv]
  · simp [authenticateToken, extractToken, hbare]
  · simp [authenticateToken, extractToken, hbare]

/-- Closed instance of the scheme-word claim: the scheme word Basic, and a
bare token, against the verifier with secret 7 and clock 100. -/
theorem token_extraction_ignores_scheme_witness :
    authenticateToken (jwtVerify 7 100 decode0)
      (some ("Basic tokok".toList)) = .proceed 1 "a@x.com" ∧
    authenticateToken (jwtVerify 7 100 decode0)
      (some ("tokok".toList)) = .reject 401 needLoginMsg := by
  have h := token_extraction_ignores_scheme (jwtVerify 7 100 decode0)
    "Basic".toList "tokok".toList (by decide) (by decide) (by decide)
    1 "a@x.com" (by decide)
  exact ⟨h.1, h.2.1⟩

/-- C5: login failure indistinguishability. For well-formed login bodies,
an unknown identity and a known identity with a wrong password produce the
same response value: status 401 and the one shared error message. -/
theorem login_failures_indistinguishable (db : DB) (secret : Nat)
    (cmp : String → String → Bool) (e1 p1 e2 p2 : String) (u : User)
    (h1e : e1 ≠ "") (h1p : p1 ≠ "") (h2e : e2 ≠ "") (h2p : p2 ≠ "")
    (hunknown : db.users.find? (fun v => v.email == normalizeEmail e1) = none)
    (hknown : db.users.find? (fun v => v.email == normalizeEmail e2) = some u)
    (hwrong : cmp p2 u.passwordHash = false) :
    (login db secret cmp e1 p1).1 = (login db secret cmp e2 p2).1 ∧
    (login db secret cmp e1 p1).1.status = 401 ∧
    (login db secret cmp e1 p1).1.body = .err loginFailMsg := by
  simp [login, h1e, h1p, h2e, h2p, hunknown, hknown, hwrong]

/-- Closed instance of login indistinguishability: an unknown email and
the known email of the fixture account, with a never-matching compare. -/
theorem login_failures_indistinguishable_witness :
    (login db1 7 cmp0 "b@x.com" "pw").1 = (login db1 7 cmp0 "a@x.com" "pw").1 ∧
    (login db1 7 cmp0 "b@x.com" "pw").1.status = 401 := by
  have h := login_failures_indistinguishable db1 7 cmp0
    "b@x.com" "pw" "a@x.com" "pw" userA
    (by decide) (by decide) (by decide) (by decide)
    (by decide) (by decide) (by decide)
  exact ⟨h.1, h.2.1⟩

/-- C8: a PATCH whose completed field is not a boolean is rejected 400 by
the typeof check before any query runs; the whole store state, hence every
item, is unchanged. -/
theorem nonbool_update_rejected (db : DB) (uid : Int) (idStr : String)
    (v : JsVal) (hv : v.isBool = false) :
    updateTodo db uid idStr v = (⟨400, .err nonBoolMsg⟩, db) := by
  cases v <;> simp_all [updateTodo, JsVal.isBool]

/-- Closed instance of the non-boolean PATCH rejection, at a string value
of completed. -/
theorem nonbool_update_rejected_witness :
    updateTodo db1 1 "10" (.vstr "yes") = (⟨400, .err nonBoolMsg⟩, db1) :=
  nonbool_update_rejected db1 1 "10" (.vstr "yes") (by decide)

/-- C7: create/list round-trip. Creating an item with valid text at a
clock strictly later than every stored item and immediately listing as the
same caller returns that item first, with exactly the given text,
completed false, and the server-assigned id and creation timestamp. -/
theorem create_list_roundtrip (db : DB) (uid : Int) (text : String)
    (hne : ¬(text = "" ∨ jsTrim text = ""))
    (hfresh : ∀ u ∈ db.todos, u.createdAt < db.now) :
    (createTodo db uid (some text)).1 =
      ⟨200, .dataTodo ⟨db.nextTodoId, text, false, uid, db.now⟩⟩ ∧
    listTodos (createTodo db uid (some text)).2 uid =
      ⟨200, .dataTodos (⟨db.nextTodoId, text, false, uid, db.now⟩ ::
        sortByCreatedDesc (db.todos.filter (fun t => t.userId == uid)))⟩ := by
  constructor
  · simp [createTodo, hne]
  · have hdb2 : (createTodo db uid (some text)).2 =
        { db with
            todos := db.todos ++ [⟨db.nextTodoId, text, false, uid, db.now⟩]
            nextTodoId := db.nextTodoId + 1
            now := db.now + 1 } := by
      simp [createTodo, hne]
    rw [hdb2]
    simp only [listTodos]
    rw [List.filter_append]
    have hsingle : List.filter (fun t => t.userId == uid)
        [(⟨db.nextTodoId, text, false, uid, db.now⟩ : Todo)] =
        [(⟨db.nextTodoId, text, false, uid, db.now⟩ : Todo)] := by simp
    rw [hsingle, sortByCreatedDesc_append_max _ _
      (fun u hu => hfresh u (List.mem_filter.mp hu).1)]

/-- Closed instance of the round-trip at the one-item fixture store. -/
theorem create_list_roundtrip_witness :
    (createTodo db1 1 (some "hello")).1 =
      ⟨200, .dataTodo ⟨11, "hello", false, 1, 6⟩⟩ ∧
    listTodos (createTodo db1 1 (some "hello")).2 1 =
      ⟨200, .dataTodos [⟨11, "hello", false, 1, 6⟩, todoA]⟩ := by
  have h := create_list_roundtrip db1 1 "hello" (by decide) (by decide)
  refine ⟨h.1, ?_⟩
  rw [h.2]
  decide

/-- C1 (amended): cross-user isolation. For an item of identity A and a
caller B distinct from A, the list never contains the item of A; a PATCH
on the id of that item with a boolean completed returns 404; a PATCH with
a non-boolean completed returns 400 by validation before the ownership
query runs; a DELETE on that id returns 404; and in every one of these
cases the store, hence the item of A, is unchanged. -/
theorem cross_user_isolation (db : DB) (t : Todo) (a b : Int)
    (_ht : t ∈ db.todos) (hta : t.userId = a) (hba : b ≠ a)
    (huniq : ∀ u ∈ db.todos, u.id = t.id → u = t)
    (idStr : String) (hid : parseBigint idStr = some t.id) :
    (∀ l, (listTodos db b).body = .dataTodos l → t ∉ l) ∧
    (∀ c : Bool, updateTodo db b idStr (.vbool c) =
      (⟨404, .err notFoundTodoMsg⟩, db)) ∧
    (∀ v : JsVal, v.isBool = false →
      updateTodo db b idStr v = (⟨400, .err nonBoolMsg⟩, db)) ∧
    deleteTodo db b idStr = (⟨404, .err notFoundTodoMsg⟩, db) := by
  have hnomatch : ∀ u ∈ db.todos, ¬((u.id == t.id && u.userId == b) = true) := by
    intro u hu hcontra
    simp only [Bool.and_eq_true, beq_iff_eq] at hcontra
    have hut := huniq u hu hcontra.1
    rw [hut] at hcontra
    exact hba (hcontra.2.symm.trans hta)
  refine ⟨?_, ?_, ?_, ?_⟩
  · intro l hl hmem
    have hXl : sortByCreatedDesc (db.todos.filter (fun u => u.userId == b)) = l := by
      simpa [listTodos] using hl
    rw [← hXl] at hmem
    have hub := (List.mem_filter.mp ((mem_sortByCreatedDesc t _).mp hmem)).2
    rw [beq_iff_eq] at hub
    exact hba (hub.symm.trans hta)
  · intro c
    have hf : db.todos.filter (fun u => u.id == t.id && u.userId == b) = [] :=
      List.filter_eq_nil_iff.mpr hnomatch
    simp [updateTodo, hid, hf]
  · intro v hv
    cases v <;> simp_all [updateTodo, JsVal.isBool]
  · have hf2 : db.todos.filter (fun u => !(u.id == t.id && u.userId == b)) =
        db.todos := by
      apply List.filter_eq_self.mpr
      intro u hu
      have hne := hnomatch u hu
      revert hne
      cases (u.id == t.id && u.userId == b) <;> simp
    simp [deleteTodo, hid, hf2]
    intro x hx hxid hxb
    have hxt := huniq x hx hxid
    rw [hxt] at hxb
    exact hba (hxb.symm.trans hta)

/-- Closed instance of cross-user isolation: caller 2 against the item of
identity 1 in the two-account fixture store. -/
theorem cross_user_isolation_witness :
    todoA ∈ db2.todos ∧ todoA.userId = 1 ∧ (2 : Int) ≠ 1 ∧
    parseBigint "10" = some todoA.id ∧
    updateTodo db2 2 "10" (.vbool true) = (⟨404, .err notFoundTodoMsg⟩, db2) ∧
    deleteTodo db2 2 "10" = (⟨404, .err notFoundTodoMsg⟩, db2) :=
  ⟨by decide, by decide, by decide, by decide,
   (cross_user_isolation db2 todoA 1 2 (by decide) (by decide) (by decide)
     (by decide) "10" (by decide)).2.1 true,
   (cross_user_isolation db2 todoA 1 2 (by decide) (by decide) (by decide)
     (by decide) "10" (by decide)).2.2.2⟩

/-- C1 counterexample to the unamended claim: a PATCH on the id of the
item of identity 1, authenticated as identity 2, whose completed field is
the string done, answers 400, not the 404 the claim states for every such
request. -/
theorem cross_user_isolation_counterexample :
    todoA ∈ db2.todos ∧ todoA.userId = 1 ∧
    parseBigint "10" = some todoA.id ∧
    (updateTodo db2 2 "10" (.vstr "done")).1.status = 400 ∧
    ¬((updateTodo db2 2 "10" (.vstr "done")).1.status = 404) := by decide

/-- C6 (amended): duplicate registration. A registration whose body passes
input validation and whose normalized email matches a stored account
(stored emails being normalized, as the register handler always inserts
the normalized form) answers 409 and leaves the store unchanged: no row is
created and the existing account is not overwritten. -/
theorem duplicate_register_conflict (db : DB) (secret : Nat)
    (hash : String → String) (email password : String) (u : User)
    (he : email ≠ "") (hp : password ≠ "")
    (hre : emailRegexOk email = true) (hlen : ¬password.length < 6)
    (hu : u ∈ db.users)
    (hnorm : ∀ v ∈ db.users, normalizeEmail v.email = v.email)
    (hmatch : normalizeEmail email = normalizeEmail u.email) :
    register db secret hash email password = (⟨409, .err dupEmailMsg⟩, db) := by
  have hmatch2 : normalizeEmail email = u.email := by rw [hmatch, hnorm u hu]
  have hany : (db.users.any (fun v => v.email == normalizeEmail email)) = true :=
    List.any_eq_true.mpr ⟨u, hu, by simp [hmatch2]⟩
  simp [register, he, hp, hre, hlen, hany]

/-- Closed instance of the duplicate registration conflict: registering
the fixture email again with different case. -/
theorem duplicate_register_conflict_witness :
    register db1 7 hash0 "A@X.com" "secret1" = (⟨409, .err dupEmailMsg⟩, db1) :=
  duplicate_register_conflict db1 7 hash0 "A@X.com" "secret1" userA
    (by decide) (by decide) (by decide) (by decide) (by decide)
    (by decide) (by decide)

/-- C6 counterexample to the unamended claim: a registration whose email
matches the stored account case-insensitively but whose password is three
characters long answers 400 from the length validation, not the 409 the
claim states for every matching request. -/
theorem duplicate_register_counterexample :
    userA ∈ db1.users ∧
    normalizeEmail "A@X.com" = normalizeEmail userA.email ∧
    (register db1 7 hash0 "A@X.com" "123").1.status = 400 ∧
    ¬((register db1 7 hash0 "A@X.com" "123").1.status = 409) ∧
    (register db1 7 hash0 "A@X.com" "123").2 = db1 := by decide

/-- C10 (amended): an id the store cannot cast to bigint makes the UPDATE
and DELETE queries raise, the catch block answers 500 (not 404), and the
store is unchanged; for PATCH this is the behavior once the boolean
validation of completed has passed. -/
theorem bad_id_store_error (db : DB) (uid : Int) (idStr : String) (b : Bool)
    (hid : parseBigint idStr = none) :
    updateTodo db uid idStr (.vbool b) =
      (⟨500, .errDetails serverErrMsg (invalidBigintMsg idStr)⟩, db) ∧
    deleteTodo db uid idStr =
      (⟨500, .errDetails serverErrMsg (invalidBigintMsg idStr)⟩, db) := by
  constructor
  · simp [updateTodo, hid]
  · simp [deleteTodo, hid]

/-- Closed instance of the uncastable-id 500 behavior. -/
theorem bad_id_store_error_witness :
    updateTodo db1 1 "abc" (.vbool true) =
      (⟨500, .errDetails serverErrMsg (invalidBigintMsg "abc")⟩, db1) ∧
    deleteTodo db1 1 "abc" =
      (⟨500, .errDetails serverErrMsg (invalidBigintMsg "abc")⟩, db1) :=
  bad_id_store_error db1 1 "abc" true (by decide)

/-- C10 counterexample to the unamended claim: a PATCH with an uncastable
id and a non-boolean completed is answered 400 by the validation that runs
before the query, not 500 as the claim states for every such PATCH. -/
theorem bad_id_nonbool_counterexample :
    parseBigint "abc" = none ∧
    (updateTodo db1 1 "abc" (.vstr "x")).1.status = 400 ∧
    ¬((updateTodo db1 1 "abc" (.vstr "x")).1.status = 500) := by decide

set_option maxRecDepth 8192 in
/-- C3: the create handler has no length check, against the claim and the
repository documentation: a 501-character text is accepted with 200 and
persisted, one character past the documented 500 bound; the
empty-and-whitespace rejection the claim also states does hold. -/
theorem overlong_text_accepted :
    longText.length = 501 ∧
    (createTodo db1 1 (some longText)).1.status = 200 ∧
    (createTodo db1 1 (some longText)).2.todos =
      db1.todos ++ [⟨11, longText, false, 1, 6⟩] ∧
    (createTodo db1 1 (some "   ")).1.status = 400 ∧
    (createTodo db1 1 (some "   ")).2 = db1 := by decide

/-- C4: a failure response that is not the bare error envelope: the 500
answer of the PATCH handler carries a details field with the raw store
error text beside the error field. -/
theorem error_detail_leaked :
    (updateTodo db1 1 "abc" (.vbool true)).1 =
      ⟨500, .errDetails serverErrMsg (invalidBigintMsg "abc")⟩ := by decide
